import Mathlib

/-!
Verification development for the floating-origin frame-conversion and
hybrid rails/physics propagation engine of `hack-club-space-program`.

The Rust source is shallowly embedded over exact real arithmetic:
2D double-precision vectors (`glam::DVec2`) become pairs of reals, and the
`f64 -> f32` narrowing casts (`as_vec2()`, `as f32`) are modelled by an
abstract per-coordinate rounding function `narrow : ℝ → ℝ` that theorems
constrain by an explicit relative-error bound where rounding matters.
External-library values (keplerian_sim orbits, the rapier contact query)
are modelled by their documented contracts: an orbit is its evaluation
function, and the contact query result is a boolean input.
-/

namespace HCSP

/-- 2D vector (models `glam::DVec2`), with exact real coordinates. -/
abbrev Vec2 := ℝ × ℝ

/-- `DVec2::length_squared`. -/
def length_squared (v : Vec2) : ℝ := v.1 ^ 2 + v.2 ^ 2

/-- `DVec2::length`. -/
noncomputable def length (v : Vec2) : ℝ := Real.sqrt (length_squared v)

/-- `DVec2::normalize_or_zero`: `v / |v|`, or zero when `v` is zero. -/
noncomputable def normalize_or_zero (v : Vec2) : Vec2 :=
  if v = 0 then 0 else (length v)⁻¹ • v

/-- `GRAVITATIONAL_CONSTANT` from `src/consts/mod.rs`. -/
def GRAVITATIONAL_CONSTANT : ℝ := 6.6743e-11

/-- Applies an `f64 -> f32` narrowing model coordinatewise
(`DVec2::as_vec2`, or the two `as f32` casts building a `Vec2`). -/
def narrow2 (narrow : ℝ → ℝ) (v : Vec2) : Vec2 := (narrow v.1, narrow v.2)

/-- The real-valued force vector computed by `apply_gravity_inner`
(`src/systems/gravity.rs:39-55`): `rel_pos = vessel_pos - parent_pos`,
`r_sq = rel_pos.length_squared().max(1e-9)`,
`grav_direction = -rel_pos.normalize_or_zero()`,
`force = G * m1 * m2 / r_sq * grav_direction`. -/
noncomputable def grav_force (vessel_pos parent_pos : Vec2) (m1 m2 : ℝ) : Vec2 :=
  let rel_pos := vessel_pos - parent_pos
  let r_sq := max (length_squared rel_pos) 1e-9
  let grav_direction := -(normalize_or_zero rel_pos)
  (GRAVITATIONAL_CONSTANT * m1 * m2 / r_sq) • grav_direction

/-- `apply_gravity_inner` writing the external force
(`vessel.force.force = Vec2::new(force.x as f32, force.y as f32)`,
`src/systems/gravity.rs:57`); the `as f32` casts are the `narrow` model. -/
noncomputable def apply_gravity_inner (narrow : ℝ → ℝ)
    (vessel_pos parent_pos : Vec2) (m1 m2 : ℝ) : Vec2 :=
  narrow2 narrow (grav_force vessel_pos parent_pos m1 m2)

lemma length_squared_nonneg (v : Vec2) : 0 ≤ length_squared v := by
  unfold length_squared
  positivity

lemma length_squared_eq_zero {v : Vec2} (h : length_squared v = 0) : v = 0 := by
  unfold length_squared at h
  have hx : v.1 = 0 := by nlinarith [sq_nonneg v.1, sq_nonneg v.2]
  have hy : v.2 = 0 := by nlinarith [sq_nonneg v.1, sq_nonneg v.2]
  exact Prod.ext hx hy

lemma length_squared_pos {v : Vec2} (hv : v ≠ 0) : 0 < length_squared v := by
  rcases (length_squared_nonneg v).lt_or_eq with h | h
  · exact h
  · exact absurd (length_squared_eq_zero h.symm) hv

lemma length_pos {v : Vec2} (hv : v ≠ 0) : 0 < length v :=
  Real.sqrt_pos.mpr (length_squared_pos hv)

lemma length_smul (c : ℝ) (v : Vec2) : length (c • v) = |c| * length v := by
  unfold length length_squared
  have h : (c • v).1 ^ 2 + (c • v).2 ^ 2 = c ^ 2 * (v.1 ^ 2 + v.2 ^ 2) := by
    simp [Prod.smul_fst, Prod.smul_snd, smul_eq_mul]
    ring
  rw [h, Real.sqrt_mul (sq_nonneg c), Real.sqrt_sq_eq_abs]

lemma length_normalize_or_zero {v : Vec2} (hv : v ≠ 0) :
    length (normalize_or_zero v) = 1 := by
  unfold normalize_or_zero
  rw [if_neg hv, length_smul]
  have hpos := length_pos hv
  rw [abs_inv, abs_of_pos hpos]
  field_simp

/-- Claim C5: for every loaded, physics-simulated vessel with a celestial
parent, `apply_gravity` sets the vessel's external force to magnitude
`G * m_vessel * m_parent / r_sq` directed from the vessel toward its parent,
where `r_sq` is the squared relative-position length clamped from below by the
small positive floor `1e-9`, and the stored force is the coordinatewise
narrowing of that real-valued vector. -/
theorem gravity_force_magnitude_direction (narrow : ℝ → ℝ)
    (vessel_pos parent_pos : Vec2) (m1 m2 : ℝ)
    (hne : vessel_pos ≠ parent_pos) (hm1 : 0 ≤ m1) (hm2 : 0 ≤ m2) :
    length (grav_force vessel_pos parent_pos m1 m2)
        = GRAVITATIONAL_CONSTANT * m1 * m2
            / max (length_squared (vessel_pos - parent_pos)) 1e-9
      ∧ (∃ c : ℝ, 0 ≤ c ∧
          grav_force vessel_pos parent_pos m1 m2 = c • (parent_pos - vessel_pos))
      ∧ apply_gravity_inner narrow vessel_pos parent_pos m1 m2
          = narrow2 narrow (grav_force vessel_pos parent_pos m1 m2) := by
  have hrel : vessel_pos - parent_pos ≠ 0 := sub_ne_zero_of_ne hne
  have hfloor : (0 : ℝ) < max (length_squared (vessel_pos - parent_pos)) 1e-9 :=
    lt_max_of_lt_right (by norm_num)
  have hscal : 0 ≤ GRAVITATIONAL_CONSTANT * m1 * m2
      / max (length_squared (vessel_pos - parent_pos)) 1e-9 := by
    apply div_nonneg _ (le_of_lt hfloor)
    have hG : (0 : ℝ) ≤ GRAVITATIONAL_CONSTANT := by norm_num [GRAVITATIONAL_CONSTANT]
    positivity
  refine ⟨?_, ⟨?_, ?_, ?_⟩, rfl⟩
  · unfold grav_force
    simp only
    rw [smul_neg, ← neg_smul, length_smul, length_normalize_or_zero hrel, mul_one, abs_neg,
      abs_of_nonneg hscal]
  · exact (GRAVITATIONAL_CONSTANT * m1 * m2
      / max (length_squared (vessel_pos - parent_pos)) 1e-9) * (length (vessel_pos - parent_pos))⁻¹
  · have hlen := length_pos hrel
    positivity
  · unfold grav_force normalize_or_zero
    simp only [if_neg hrel]
    rw [← smul_neg, neg_sub, smul_smul]

/-- Witness for C5 at vessel position `(0, 2)`, parent at the origin, unit
masses, identity narrowing. -/
theorem gravity_force_magnitude_direction_witness :
    ((0, 2) : Vec2) ≠ (0, 0) ∧
      (length (grav_force (0, 2) (0, 0) 1 1)
          = GRAVITATIONAL_CONSTANT * 1 * 1
              / max (length_squared (((0, 2) : Vec2) - (0, 0))) 1e-9
        ∧ (∃ c : ℝ, 0 ≤ c ∧
            grav_force (0, 2) (0, 0) 1 1 = c • (((0, 0) : Vec2) - (0, 2)))
        ∧ apply_gravity_inner id (0, 2) (0, 0) 1 1
            = narrow2 id (grav_force (0, 2) (0, 0) 1 1)) := by
  have hne : ((0, 2) : Vec2) ≠ (0, 0) := by
    intro h
    have := congrArg Prod.snd h
    norm_num at this
  exact ⟨hne,
    gravity_force_magnitude_direction id (0, 2) (0, 0) 1 1 hne (by norm_num) (by norm_num)⟩

/-- Claim C9: if a loaded vessel's root position exactly equals its parent's
root position, `apply_gravity` sets the vessel's external force to exactly
`(0, 0)`: `normalize_or_zero` yields a zero direction, so no clamped-floor
force is applied at coincidence. -/
theorem gravity_zero_at_coincidence (narrow : ℝ → ℝ) (h0 : narrow 0 = 0)
    (vessel_pos parent_pos : Vec2) (m1 m2 : ℝ) (heq : vessel_pos = parent_pos) :
    apply_gravity_inner narrow vessel_pos parent_pos m1 m2 = (0, 0) := by
  unfold apply_gravity_inner grav_force normalize_or_zero narrow2
  subst heq
  simp [h0]

/-- Witness for C9 at coinciding positions `(3, 4)` with identity narrowing. -/
theorem gravity_zero_at_coincidence_witness :
    (id : ℝ → ℝ) 0 = 0 ∧
      apply_gravity_inner id (3, 4) (3, 4) 5 7 = (0, 0) :=
  ⟨rfl, gravity_zero_at_coincidence id rfl (3, 4) (3, 4) 5 7 rfl⟩

/-- `RootSpacePosition::to_rigid_space_position`
(`src/components/frames.rs:36-43`): subtract the active vessel's root
position, then narrow to single precision (`as_vec2`, modelled by `narrow`). -/
def to_rigid_space_position (narrow : ℝ → ℝ) (self active_vessel_pos : Vec2) : Vec2 :=
  narrow2 narrow (self - active_vessel_pos)

/-- `RigidSpacePosition::to_root_space_position`
(`src/components/frames.rs:101-109`): widen to double precision (exact) and
add the active vessel's root position. -/
def to_root_space_position (self active_vessel_pos : Vec2) : Vec2 :=
  active_vessel_pos + self

/-- `RootSpaceLinearVelocity::to_rigid_space_linear_velocity`
(`src/components/frames.rs:75-84`): subtract the active vessel's root
velocity, then narrow to single precision. -/
def to_rigid_space_linear_velocity (narrow : ℝ → ℝ) (self active_vessel_vel : Vec2) : Vec2 :=
  narrow2 narrow (self - active_vessel_vel)

/-- `RigidSpaceLinearVelocity::to_root_space_linear_velocity`
(`src/components/frames.rs:149-157`): widen (exact) and add the active
vessel's root velocity. -/
def to_root_space_linear_velocity (self active_vessel_vel : Vec2) : Vec2 :=
  active_vessel_vel + self

/-- Claim C4: for every root-space position `p` and origin `o`, converting to
rigid space and back with the same origin yields `p` within single-precision
rounding error: when the narrowing model has relative error at most `eps`, the
round-trip error on each coordinate is at most `eps` times the corresponding
rigid-space coordinate `|(p - o).i|`; the same bound holds for linear
velocity, whose conversions use only the origin's velocity, never a
positional origin. -/
theorem rigid_root_roundtrip (narrow : ℝ → ℝ) (eps : ℝ)
    (hnarrow : ∀ x : ℝ, |narrow x - x| ≤ eps * |x|) (p o v ov : Vec2) :
    |(to_root_space_position (to_rigid_space_position narrow p o) o).1 - p.1|
        ≤ eps * |(p - o).1|
      ∧ |(to_root_space_position (to_rigid_space_position narrow p o) o).2 - p.2|
        ≤ eps * |(p - o).2|
      ∧ |(to_root_space_linear_velocity
            (to_rigid_space_linear_velocity narrow v ov) ov).1 - v.1|
        ≤ eps * |(v - ov).1|
      ∧ |(to_root_space_linear_velocity
            (to_rigid_space_linear_velocity narrow v ov) ov).2 - v.2|
        ≤ eps * |(v - ov).2| := by
  unfold to_root_space_position to_rigid_space_position
    to_root_space_linear_velocity to_rigid_space_linear_velocity narrow2
  have key : ∀ a b : ℝ, b + narrow (a - b) - a = narrow (a - b) - (a - b) := by
    intro a b
    ring
  refine ⟨?_, ?_, ?_, ?_⟩ <;>
    simp only [Prod.fst_add, Prod.snd_add, Prod.fst_sub, Prod.snd_sub, key]
  · exact hnarrow (p.1 - o.1)
  · exact hnarrow (p.2 - o.2)
  · exact hnarrow (v.1 - ov.1)
  · exact hnarrow (v.2 - ov.2)

/-- Witness for C4 with the identity narrowing, zero relative error, at
`p = (3, 7)`, `o = (1, 2)`, `v = (5, 6)`, `ov = (1, 1)`. -/
theorem rigid_root_roundtrip_witness :
    (∀ x : ℝ, |(id : ℝ → ℝ) x - x| ≤ 0 * |x|) ∧
      (|(to_root_space_position (to_rigid_space_position id (3, 7) (1, 2)) (1, 2)).1
            - (3 : ℝ)| ≤ 0 * |((((3 : ℝ), (7 : ℝ)) : Vec2) - (1, 2)).1|
        ∧ |(to_root_space_position (to_rigid_space_position id (3, 7) (1, 2)) (1, 2)).2
            - (7 : ℝ)| ≤ 0 * |((((3 : ℝ), (7 : ℝ)) : Vec2) - (1, 2)).2|
        ∧ |(to_root_space_linear_velocity
              (to_rigid_space_linear_velocity id (5, 6) (1, 1)) (1, 1)).1
            - (5 : ℝ)| ≤ 0 * |((((5 : ℝ), (6 : ℝ)) : Vec2) - (1, 1)).1|
        ∧ |(to_root_space_linear_velocity
              (to_rigid_space_linear_velocity id (5, 6) (1, 1)) (1, 1)).2
            - (6 : ℝ)| ≤ 0 * |((((5 : ℝ), (6 : ℝ)) : Vec2) - (1, 1)).2|) :=
  ⟨fun x => by simp, rigid_root_roundtrip id 0 (fun x => by simp) (3, 7) (1, 2) (5, 6) (1, 1)⟩

/-- `f64::atan2` as used by `DVec2::to_angle` (angle of the vector from the
positive x axis): standard four-quadrant arctangent over the reals, with
`atan2 0 0 = 0`. -/
noncomputable def atan2 (y x : ℝ) : ℝ :=
  if 0 < x then Real.arctan (y / x)
  else if x < 0 then
    (if 0 ≤ y then Real.arctan (y / x) + Real.pi else Real.arctan (y / x) - Real.pi)
  else
    (if 0 < y then Real.pi / 2 else if y < 0 then -(Real.pi / 2) else 0)

/-- `SurfaceAttachment` (`src/components/relations.rs:113-121`). -/
structure SurfaceAttachment where
  angle : ℝ
  radius : ℝ

/-- `keplerian_sim::Orbit2D`, modelled by its contract: a cached orbit is the
function taking an elapsed time to relative position and velocity
(`get_state_vectors_at_time`). -/
structure Orbit2D where
  state_vectors_at_time : ℝ → Vec2 × Vec2

/-- `RailMode` (`src/components/relations.rs:26-37`). -/
inductive RailMode where
  | none
  | orbit (o : Orbit2D)
  | surface (a : SurfaceAttachment)

/-- `RailMode::is_none` (`src/components/relations.rs:42-44`). -/
def RailMode.is_none : RailMode → Bool
  | .none => true
  | _ => false

/-- `write_sv_to_rail_inner` (`src/systems/rail.rs:66-104`): the rapier
contact query result is the boolean `touching`, and the keplerian_sim fit
`StateVectors2D::to_cached_orbit` is the abstract parameter
`to_cached_orbit` taking relative position, relative velocity, the
gravitational parameter `G * parent_mass`, and the elapsed time. -/
noncomputable def write_sv_to_rail_inner
    (to_cached_orbit : Vec2 → Vec2 → ℝ → ℝ → Orbit2D)
    (vessel_pos vessel_vel parent_pos parent_vel : Vec2)
    (parent_mass : ℝ) (touching : Bool) (elapsed : ℝ) : RailMode :=
  let rel_pos := vessel_pos - parent_pos
  if touching then
    RailMode.surface { angle := atan2 rel_pos.2 rel_pos.1, radius := length rel_pos }
  else
    let rel_vel := vessel_vel - parent_vel
    RailMode.orbit (to_cached_orbit rel_pos rel_vel
      (GRAVITATIONAL_CONSTANT * parent_mass) elapsed)

lemma atan2_mem_Ioc (y x : ℝ) : atan2 y x ∈ Set.Ioc (-Real.pi) Real.pi := by
  have hpi := Real.pi_pos
  have h1 := Real.arctan_lt_pi_div_two (y / x)
  have h2 := Real.neg_pi_div_two_lt_arctan (y / x)
  unfold atan2
  simp only [Set.mem_Ioc]
  split_ifs with hx hx2 hy hy2 hy3
  · exact ⟨by linarith, by linarith⟩
  · have hdiv : y / x ≤ 0 := div_nonpos_of_nonneg_of_nonpos hy (le_of_lt hx2)
    have harc : Real.arctan (y / x) ≤ 0 := by
      have := Real.arctan_strictMono.monotone hdiv
      rwa [Real.arctan_zero] at this
    exact ⟨by linarith, by linarith⟩
  · have hdiv : 0 < y / x := div_pos_of_neg_of_neg (lt_of_not_le hy) hx2
    have harc : 0 < Real.arctan (y / x) := by
      have := Real.arctan_strictMono hdiv
      rwa [Real.arctan_zero] at this
    exact ⟨by linarith, by linarith⟩
  · exact ⟨by linarith, by linarith⟩
  · exact ⟨by linarith, by linarith⟩
  · exact ⟨by linarith, by linarith⟩

lemma atan2_eleven_zero : atan2 11 0 = Real.pi / 2 := by
  unfold atan2
  norm_num

lemma length_zero_eleven : length ((0, 11) : Vec2) = 11 := by
  unfold length length_squared
  norm_num
  rw [show (121 : ℝ) = 11 ^ 2 by norm_num, Real.sqrt_sq (by norm_num : (0 : ℝ) ≤ 11)]

/-- Claim C6: for every loaded vessel in active contact with its celestial
parent, classification writes `RailMode::Surface` with
`angle = atan2 (relative position)` — a value in `(-pi, pi]` — and
`radius = |relative position|`, without fitting an orbit; in particular a
vessel at relative position `(0, 11)` in contact is classified
`Surface { angle := pi / 2, radius := 11 }`. -/
theorem surface_classification
    (to_cached_orbit : Vec2 → Vec2 → ℝ → ℝ → Orbit2D)
    (vessel_pos vessel_vel parent_pos parent_vel : Vec2)
    (parent_mass : ℝ) (touching : Bool) (elapsed : ℝ)
    (hcontact : touching = true) :
    write_sv_to_rail_inner to_cached_orbit vessel_pos vessel_vel parent_pos
        parent_vel parent_mass touching elapsed
      = RailMode.surface
          { angle := atan2 (vessel_pos - parent_pos).2 (vessel_pos - parent_pos).1,
            radius := length (vessel_pos - parent_pos) }
      ∧ atan2 (vessel_pos - parent_pos).2 (vessel_pos - parent_pos).1
          ∈ Set.Ioc (-Real.pi) Real.pi
      ∧ write_sv_to_rail_inner to_cached_orbit (0, 11) vessel_vel (0, 0)
          parent_vel parent_mass true elapsed
        = RailMode.surface { angle := Real.pi / 2, radius := 11 } := by
  refine ⟨?_, atan2_mem_Ioc _ _, ?_⟩
  · unfold write_sv_to_rail_inner
    rw [hcontact]
    simp
  · unfold write_sv_to_rail_inner
    simp only [if_true, Prod.mk_sub_mk, sub_zero]
    rw [atan2_eleven_zero, length_zero_eleven]

/-- A trivial orbit-fit stand-in used by concrete witnesses. -/
def trivial_fit : Vec2 → Vec2 → ℝ → ℝ → Orbit2D :=
  fun _ _ _ _ => ⟨fun _ => ((0, 0), (0, 0))⟩

/-- Witness for C6 at vessel `(0, 11)`, parent at the origin, in contact. -/
theorem surface_classification_witness :
    true = true ∧
      (write_sv_to_rail_inner trivial_fit (0, 11) (0, 0) (0, 0) (0, 0) 10 true 0
          = RailMode.surface
              { angle := atan2 ((((0 : ℝ), (11 : ℝ)) : Vec2) - (0, 0)).2
                  ((((0 : ℝ), (11 : ℝ)) : Vec2) - (0, 0)).1,
                radius := length ((((0 : ℝ), (11 : ℝ)) : Vec2) - (0, 0)) }
        ∧ atan2 ((((0 : ℝ), (11 : ℝ)) : Vec2) - (0, 0)).2
              ((((0 : ℝ), (11 : ℝ)) : Vec2) - (0, 0)).1
            ∈ Set.Ioc (-Real.pi) Real.pi
        ∧ write_sv_to_rail_inner trivial_fit (0, 11) (0, 0) (0, 0) (0, 0) 10 true 0
            = RailMode.surface { angle := Real.pi / 2, radius := 11 }) :=
  ⟨rfl, surface_classification trivial_fit (0, 11) (0, 0) (0, 0) (0, 0) 10 true 0 rfl⟩

/-- The bevy `Time` resource: elapsed simulation time and the fixed
timestep delta, in seconds. -/
structure Time where
  elapsed : ℝ
  delta : ℝ

/-- `Duration::checked_sub`, over the real-valued duration model:
`none` when the subtrahend exceeds the minuend. -/
noncomputable def duration_checked_sub (a b : ℝ) : Option ℝ :=
  if b ≤ a then some (a - b) else Option.none

/-- `RelativeStateVectors` (`src/systems/rail.rs:124-128`). -/
structure RelativeStateVectors where
  position : Vec2
  velocity : Vec2

/-- `convert_rail_to_relative_sv` (`src/systems/rail.rs:151-170`). The
`RailMode::None` branch is the source's `unreachable!` panic, modelled as
`Option.none`; `Surface` evaluates `DVec2::from_angle(a.angle) * a.radius`
with zero relative velocity. -/
noncomputable def convert_rail_to_relative_sv (rail : RailMode) (time : ℝ) :
    Option RelativeStateVectors :=
  match rail with
  | RailMode.none => Option.none
  | RailMode.orbit o =>
    let sv := o.state_vectors_at_time time
    some { position := sv.1, velocity := sv.2 }
  | RailMode.surface a =>
    some { position := a.radius • ((Real.cos a.angle, Real.sin a.angle) : Vec2),
           velocity := 0 }

/-- The components of one entity that the rail systems read or write. -/
structure EntityData where
  is_vessel : Bool
  is_celestial_body : Bool
  rigid_body_disabled : Bool
  rail_mode : Option RailMode
  pos : Option Vec2
  vel : Option Vec2
  celestial_parent : Option ℕ
  celestial_children : Option (List ℕ)

/-- An ECS world: entity ids to component data. -/
def World := ℕ → Option EntityData

/-- `FilterUnloadedVessels` (`src/consts/mod.rs:16-20`). -/
def filter_unloaded_vessels (e : EntityData) : Bool :=
  e.is_vessel && e.rigid_body_disabled && !e.is_celestial_body

/-- `FilterLoadedVessels` (`src/consts/mod.rs:10-14`). -/
def filter_loaded_vessels (e : EntityData) : Bool :=
  e.is_vessel && !e.rigid_body_disabled && !e.is_celestial_body

/-- `FilterUnloadedVesselOrCelestialBody` (`src/systems/rail.rs:19`). -/
def filter_unloaded_vessel_or_celestial_body (e : EntityData) : Bool :=
  filter_unloaded_vessels e || e.is_celestial_body

/-- One row of `Query<NodeData, FilterUnloadedVesselOrCelestialBody>`
(`src/systems/rail.rs:21-28`). -/
structure NodeData where
  rail_mode : RailMode
  pos : Vec2
  vel : Vec2
  children : Option (List ℕ)

/-- `on_rails_query.get_mut(node)`: succeeds when the entity exists, passes
the filter, and has all of `NodeData`'s required components. -/
def on_rails_query_get (w : World) (id : ℕ) : Option NodeData :=
  match w id with
  | Option.none => Option.none
  | some e =>
    if filter_unloaded_vessel_or_celestial_body e then
      match e.rail_mode, e.pos, e.vel with
      | some rm, some p, some v =>
        some { rail_mode := rm, pos := p, vel := v, children := e.celestial_children }
      | _, _, _ => Option.none
    else Option.none

/-- `SvData` (`src/systems/rail.rs:36-41`). -/
structure SvData where
  pos : Vec2
  vel : Vec2

/-- `off_rails_query.get_mut(node)` for
`Query<SvData, (With<CelestialParent>, FilterLoadedVessels)>`
(`src/systems/rail.rs:184`). -/
def off_rails_query_get (w : World) (id : ℕ) : Option SvData :=
  match w id with
  | Option.none => Option.none
  | some e =>
    if e.celestial_parent.isSome && filter_loaded_vessels e then
      match e.pos, e.vel with
      | some p, some v => some { pos := p, vel := v }
      | _, _ => Option.none
    else Option.none

/-- Writing a node's root position and velocity through the query's mutable
references. -/
def set_pos_vel (w : World) (id : ℕ) (p v : Vec2) : World :=
  fun i => if i = id then (w i).map (fun e => { e with pos := some p, vel := some v })
    else w i

/-- Writing a node's root velocity through the query's mutable reference. -/
def set_vel (w : World) (id : ℕ) (v : Vec2) : World :=
  fun i => if i = id then (w i).map (fun e => { e with vel := some v }) else w i

/-- Root position component of an entity, if present. -/
def pos_of (w : World) (id : ℕ) : Option Vec2 := (w id).bind (fun e => e.pos)

/-- Root velocity component of an entity, if present. -/
def vel_of (w : World) (id : ℕ) : Option Vec2 := (w id).bind (fun e => e.vel)

/-- `write_rail_to_sv_inner` (`src/systems/rail.rs:179-246`). The recursion
is bounded by explicit `fuel` (the Rust recursion terminates because the
celestial forest is acyclic by construction; exhausted fuel returns the world
unchanged). A result of `Option.none` models a panic: either the
`unreachable!` inside `convert_rail_to_relative_sv` or the `unwrap` on
`time.elapsed().checked_sub(time.delta())`. -/
noncomputable def write_rail_to_sv_inner :
    ℕ → ℕ → Vec2 × Vec2 → Vec2 → Time → World → Option World
  | 0, _, _, _, _, w => some w
  | fuel + 1, node, parent_sv, accum_shift, time, w =>
    match on_rails_query_get w node with
    | Option.none =>
      match off_rails_query_get w node with
      | Option.none => some w
      | some sv => some (set_vel w node (sv.vel + accum_shift))
    | some nd =>
      if nd.rail_mode.is_none then
        some w
      else
        match duration_checked_sub time.elapsed time.delta with
        | Option.none => Option.none
        | some old_time =>
          match convert_rail_to_relative_sv nd.rail_mode old_time with
          | Option.none => Option.none
          | some old_rel_sv =>
            match convert_rail_to_relative_sv nd.rail_mode time.elapsed with
            | Option.none => Option.none
            | some new_rel_sv =>
              let new_root_pos := parent_sv.1 + new_rel_sv.position
              let new_root_vel := parent_sv.2 + new_rel_sv.velocity
              let w1 := set_pos_vel w node new_root_pos new_root_vel
              match nd.children with
              | Option.none => some w1
              | some children =>
                children.foldl
                  (fun acc child => acc.bind
                    (write_rail_to_sv_inner fuel child (new_root_pos, new_root_vel)
                      (accum_shift + (new_rel_sv.velocity - old_rel_sv.velocity)) time))
                  (some w1)

/-- `ZERO_SV` (`src/systems/rail.rs:61-64`). -/
def ZERO_SV : Vec2 × Vec2 := (0, 0)

/-- `write_rail_to_sv` (`src/systems/rail.rs:248-266`): every child of every
parentless forest root is seeded with a zero parent state vector and a zero
accumulated shift; `root_children` is the concatenation of the roots'
`CelestialChildren` lists in query iteration order. -/
noncomputable def write_rail_to_sv (fuel : ℕ) (root_children : List ℕ)
    (time : Time) (w : World) : Option World :=
  root_children.foldl
    (fun acc node => acc.bind (write_rail_to_sv_inner fuel node ZERO_SV 0 time))
    (some w)

lemma duration_checked_sub_of_le {a b : ℝ} (h : b ≤ a) :
    duration_checked_sub a b = some (a - b) := by
  unfold duration_checked_sub
  rw [if_pos h]

lemma convert_orbit (o : Orbit2D) (t : ℝ) :
    convert_rail_to_relative_sv (RailMode.orbit o) t
      = some { position := (o.state_vectors_at_time t).1,
               velocity := (o.state_vectors_at_time t).2 } := rfl

lemma convert_surface (a : SurfaceAttachment) (t : ℝ) :
    convert_rail_to_relative_sv (RailMode.surface a) t
      = some { position := a.radius • ((Real.cos a.angle, Real.sin a.angle) : Vec2),
               velocity := 0 } := rfl

lemma set_pos_vel_ne (w : World) (id : ℕ) (p v : Vec2) {j : ℕ} (h : j ≠ id) :
    set_pos_vel w id p v j = w j := by
  simp [set_pos_vel, h]

lemma set_pos_vel_self (w : World) (id : ℕ) (p v : Vec2) :
    set_pos_vel w id p v id = (w id).map (fun e => { e with pos := some p, vel := some v }) := by
  simp [set_pos_vel]

lemma on_rails_query_get_set_pos_vel_ne (w : World) (id : ℕ) (p v : Vec2) {j : ℕ}
    (h : j ≠ id) :
    on_rails_query_get (set_pos_vel w id p v) j = on_rails_query_get w j := by
  unfold on_rails_query_get
  rw [set_pos_vel_ne w id p v h]

/-- One unfolding of `write_rail_to_sv_inner` on the off-rails branch. -/
lemma write_rail_inner_step_off_rails (fuel node : ℕ) (parent_sv : Vec2 × Vec2)
    (accum_shift : Vec2) (time : Time) (w : World) (sv : SvData)
    (h1 : on_rails_query_get w node = Option.none)
    (h2 : off_rails_query_get w node = some sv) :
    write_rail_to_sv_inner (fuel + 1) node parent_sv accum_shift time w
      = some (set_vel w node (sv.vel + accum_shift)) := by
  simp only [write_rail_to_sv_inner, h1, h2]

/-- One unfolding of `write_rail_to_sv_inner` when the node is in neither
query. -/
lemma write_rail_inner_step_no_query (fuel node : ℕ) (parent_sv : Vec2 × Vec2)
    (accum_shift : Vec2) (time : Time) (w : World)
    (h1 : on_rails_query_get w node = Option.none)
    (h2 : off_rails_query_get w node = Option.none) :
    write_rail_to_sv_inner (fuel + 1) node parent_sv accum_shift time w = some w := by
  simp only [write_rail_to_sv_inner, h1, h2]

/-- One unfolding of `write_rail_to_sv_inner` on an on-rails node whose
`RailMode` is `None`. -/
lemma write_rail_inner_step_none_mode (fuel node : ℕ) (parent_sv : Vec2 × Vec2)
    (accum_shift : Vec2) (time : Time) (w : World) (nd : NodeData)
    (h1 : on_rails_query_get w node = some nd)
    (h2 : nd.rail_mode.is_none = true) :
    write_rail_to_sv_inner (fuel + 1) node parent_sv accum_shift time w = some w := by
  simp only [write_rail_to_sv_inner, h1, h2, if_true]

/-- One unfolding of `write_rail_to_sv_inner` on an on-rails node with a
non-`None` `RailMode`. -/
lemma write_rail_inner_step_rail (fuel node : ℕ) (parent_sv : Vec2 × Vec2)
    (accum_shift : Vec2) (time : Time) (w : World) (nd : NodeData)
    (old_time : ℝ) (old_rel_sv new_rel_sv : RelativeStateVectors)
    (h1 : on_rails_query_get w node = some nd)
    (h2 : nd.rail_mode.is_none = false)
    (h3 : duration_checked_sub time.elapsed time.delta = some old_time)
    (h4 : convert_rail_to_relative_sv nd.rail_mode old_time = some old_rel_sv)
    (h5 : convert_rail_to_relative_sv nd.rail_mode time.elapsed = some new_rel_sv) :
    write_rail_to_sv_inner (fuel + 1) node parent_sv accum_shift time w
      = match nd.children with
        | Option.none => some (set_pos_vel w node (parent_sv.1 + new_rel_sv.position)
            (parent_sv.2 + new_rel_sv.velocity))
        | some children =>
          children.foldl
            (fun acc child => acc.bind
              (write_rail_to_sv_inner fuel child
                (parent_sv.1 + new_rel_sv.position, parent_sv.2 + new_rel_sv.velocity)
                (accum_shift + (new_rel_sv.velocity - old_rel_sv.velocity)) time))
            (some (set_pos_vel w node (parent_sv.1 + new_rel_sv.position)
              (parent_sv.2 + new_rel_sv.velocity))) := by
  simp only [write_rail_to_sv_inner, h1, h2, h3, h4, h5, Bool.false_eq_true, if_false]

/-- Claim C2 (as amended): during rail propagation the accumulated velocity
shift is added to a child's root velocity exactly when the child matches the
off-rails query — it is a loaded, physics-simulated vessel with a
`CelestialParent` and root state-vector components, with no exception for
the active vessel — and such a child's root position is left unchanged;
a child matching neither query is left entirely unchanged. -/
theorem rail_shift_for_physics_children
    (fuel node : ℕ) (parent_sv : Vec2 × Vec2) (accum_shift : Vec2)
    (time : Time) (w : World) :
    (∀ sv : SvData, on_rails_query_get w node = Option.none →
        off_rails_query_get w node = some sv →
          write_rail_to_sv_inner (fuel + 1) node parent_sv accum_shift time w
              = some (set_vel w node (sv.vel + accum_shift))
            ∧ pos_of (set_vel w node (sv.vel + accum_shift)) node = pos_of w node)
      ∧ (on_rails_query_get w node = Option.none →
          off_rails_query_get w node = Option.none →
            write_rail_to_sv_inner (fuel + 1) node parent_sv accum_shift time w = some w)
      ∧ (∀ sv : SvData, off_rails_query_get w node = some sv →
          ∃ e : EntityData, w node = some e ∧ filter_loaded_vessels e = true
            ∧ e.celestial_parent.isSome = true) := by
  refine ⟨?_, ?_, ?_⟩
  · intro sv h1 h2
    refine ⟨write_rail_inner_step_off_rails fuel node parent_sv accum_shift time w sv h1 h2, ?_⟩
    unfold pos_of set_vel
    simp only [if_pos rfl]
    cases w node <;> simp
  · exact write_rail_inner_step_no_query fuel node parent_sv accum_shift time w
  · intro sv h
    unfold off_rails_query_get at h
    cases hw : w node with
    | none =>
      rw [hw] at h
      exact absurd h (by simp)
    | some e =>
      rw [hw] at h
      by_cases hc : (e.celestial_parent.isSome && filter_loaded_vessels e) = true
      · have hand := hc
        rw [Bool.and_eq_true] at hand
        exact ⟨e, rfl, hand.2, hand.1⟩
      · simp [hc] at h

lemma off_rails_query_get_set_pos_vel_ne (w : World) (id : ℕ) (p v : Vec2) {j : ℕ}
    (h : j ≠ id) :
    off_rails_query_get (set_pos_vel w id p v) j = off_rails_query_get w j := by
  unfold off_rails_query_get
  rw [set_pos_vel_ne w id p v h]

/-- `ActiveVessel` resource (`src/resources/mod.rs:5-11`). -/
structure ActiveVessel where
  entity : ℕ
  prev_tick_position : Vec2
  prev_tick_velocity : Vec2
  prev_tick_parent : ℕ

/-- Concrete orbit whose relative position is constantly zero and whose
relative velocity at time `t` is `(t, 0)`. -/
def orbit_cex : Orbit2D := ⟨fun t => ((0, 0), (t, 0))⟩

/-- Concrete celestial body on an orbit rail, with entity id 1 and one child,
entity id 2. -/
def parent_body_cex : EntityData :=
  { is_vessel := false, is_celestial_body := true, rigid_body_disabled := false,
    rail_mode := some (RailMode.orbit orbit_cex), pos := some (0, 0), vel := some (0, 0),
    celestial_parent := Option.none, celestial_children := some [2] }

/-- Concrete loaded vessel, entity id 2, child of entity 1, not yet
rail-classified. -/
def vessel_child_cex : EntityData :=
  { is_vessel := true, is_celestial_body := false, rigid_body_disabled := false,
    rail_mode := some RailMode.none, pos := some (10, 0), vel := some (2, 0),
    celestial_parent := some 1, celestial_children := Option.none }

/-- Concrete two-entity world: body 1 with loaded vessel child 2. -/
def world_cex : World := fun i =>
  if i = 1 then some parent_body_cex
  else if i = 2 then some vessel_child_cex
  else Option.none

/-- Concrete tick time: one second elapsed, one-second delta. -/
def time_cex : Time := ⟨1, 1⟩

/-- The concrete active-vessel resource: entity 2 is the active vessel. -/
def active_vessel_cex : ActiveVessel := ⟨2, (10, 0), (2, 0), 1⟩

lemma on_rails_world_cex_two : on_rails_query_get world_cex 2 = Option.none := by
  simp [on_rails_query_get, world_cex, vessel_child_cex,
    filter_unloaded_vessel_or_celestial_body, filter_unloaded_vessels]

lemma off_rails_world_cex_two :
    off_rails_query_get world_cex 2 = some { pos := (10, 0), vel := (2, 0) } := by
  simp [off_rails_query_get, world_cex, vessel_child_cex, filter_loaded_vessels]

/-- Witness for C2 at the concrete world: the loaded vessel child (entity 2)
receives the accumulated shift on its velocity and keeps its position. -/
theorem rail_shift_for_physics_children_witness :
    on_rails_query_get world_cex 2 = Option.none
    ∧ off_rails_query_get world_cex 2 = some { pos := (10, 0), vel := (2, 0) }
    ∧ (write_rail_to_sv_inner (0 + 1) 2 ZERO_SV (1, 0) time_cex world_cex
        = some (set_vel world_cex 2 (((2, 0) : Vec2) + (1, 0)))
      ∧ pos_of (set_vel world_cex 2 (((2, 0) : Vec2) + (1, 0))) 2 = pos_of world_cex 2) :=
  ⟨on_rails_world_cex_two, off_rails_world_cex_two,
    (rail_shift_for_physics_children 0 2 ZERO_SV (1, 0) time_cex world_cex).1
      { pos := (10, 0), vel := (2, 0) } on_rails_world_cex_two off_rails_world_cex_two⟩

/-- Counterexample to C2 as stated: in the concrete world the ACTIVE vessel
(the `ActiveVessel` resource points at entity 2, a loaded vessel child of the
orbiting body 1) has its root velocity shifted from `(2, 0)` to `(3, 0)` by
one rail-propagation pass — the off-rails query has no active-vessel
exclusion, so the claim that the active vessel's root velocity is never
shifted is false. -/
theorem rail_shift_hits_active_vessel_cex :
    vel_of world_cex active_vessel_cex.entity = some (2, 0)
    ∧ vel_of ((write_rail_to_sv_inner (1 + 1) 1 ZERO_SV 0 time_cex world_cex).getD world_cex)
        active_vessel_cex.entity = some (3, 0)
    ∧ ((3, 0) : Vec2) ≠ (2, 0) := by
  have hb : on_rails_query_get world_cex 1
      = some { rail_mode := RailMode.orbit orbit_cex, pos := (0, 0), vel := (0, 0),
               children := some [2] } := by
    simp [on_rails_query_get, world_cex, parent_body_cex,
      filter_unloaded_vessel_or_celestial_body, filter_unloaded_vessels]
  have hsub : duration_checked_sub time_cex.elapsed time_cex.delta = some 0 := by
    simp [time_cex, duration_checked_sub]
  have hold : convert_rail_to_relative_sv (RailMode.orbit orbit_cex) 0
      = some { position := (0, 0), velocity := (0, 0) } := by
    simp [convert_rail_to_relative_sv, orbit_cex]
  have hnew : convert_rail_to_relative_sv (RailMode.orbit orbit_cex) time_cex.elapsed
      = some { position := (0, 0), velocity := (1, 0) } := by
    simp [convert_rail_to_relative_sv, orbit_cex, time_cex]
  have hstep := write_rail_inner_step_rail 1 1 ZERO_SV 0 time_cex world_cex
    { rail_mode := RailMode.orbit orbit_cex, pos := (0, 0), vel := (0, 0),
      children := some [2] } 0
    { position := (0, 0), velocity := (0, 0) } { position := (0, 0), velocity := (1, 0) }
    hb rfl hsub hold hnew
  simp only [List.foldl, Option.bind] at hstep
  have hon2 : on_rails_query_get
      (set_pos_vel world_cex 1 (ZERO_SV.1 + (0, 0)) (ZERO_SV.2 + (1, 0))) 2
      = Option.none := by
    rw [on_rails_query_get_set_pos_vel_ne world_cex 1 _ _ (by norm_num)]
    exact on_rails_world_cex_two
  have hoff2 : off_rails_query_get
      (set_pos_vel world_cex 1 (ZERO_SV.1 + (0, 0)) (ZERO_SV.2 + (1, 0))) 2
      = some { pos := (10, 0), vel := (2, 0) } := by
    rw [off_rails_query_get_set_pos_vel_ne world_cex 1 _ _ (by norm_num)]
    exact off_rails_world_cex_two
  have hstep2 := write_rail_inner_step_off_rails 0 2
    (ZERO_SV.1 + (0, 0), ZERO_SV.2 + (1, 0)) (0 + ((1, 0) - (0, 0))) time_cex
    (set_pos_vel world_cex 1 (ZERO_SV.1 + (0, 0)) (ZERO_SV.2 + (1, 0)))
    { pos := (10, 0), vel := (2, 0) } hon2 hoff2
  rw [hstep2] at hstep
  refine ⟨?_, ?_, ?_⟩
  · simp [vel_of, world_cex, active_vessel_cex, vessel_child_cex]
  · rw [show active_vessel_cex.entity = 2 from rfl, hstep]
    simp [vel_of, set_vel, set_pos_vel, world_cex, vessel_child_cex]
    norm_num [Prod.ext_iff]
  · intro h
    have := congrArg Prod.fst h
    norm_num at this

lemma convert_total {rm : RailMode} (h : rm.is_none = false) (t : ℝ) :
    ∃ sv : RelativeStateVectors, convert_rail_to_relative_sv rm t = some sv := by
  cases rm with
  | none => simp [RailMode.is_none] at h
  | orbit o => exact ⟨_, convert_orbit o t⟩
  | surface a => exact ⟨_, convert_surface a t⟩

/-- Claim C3 (as amended): during rail propagation a child is recursed into
and evaluated via its rail formula (root state rewritten from the parent's
state plus the rail-evaluated relative state, then its own children visited
with the updated shift) exactly when it matches the on-rails query — it is a
celestial body or an unloaded vessel, with rail components present — and its
`RailMode` is non-`None`; a loaded vessel is never rail-evaluated, even when
its `RailMode` is non-`None`. -/
theorem on_rails_children_rail_evaluated
    (fuel node : ℕ) (parent_sv : Vec2 × Vec2) (accum_shift : Vec2)
    (time : Time) (w : World) :
    (∀ nd : NodeData, on_rails_query_get w node = some nd →
        nd.rail_mode.is_none = false → time.delta ≤ time.elapsed →
          ∃ old_rel_sv new_rel_sv : RelativeStateVectors,
            convert_rail_to_relative_sv nd.rail_mode (time.elapsed - time.delta)
                = some old_rel_sv
              ∧ convert_rail_to_relative_sv nd.rail_mode time.elapsed = some new_rel_sv
              ∧ write_rail_to_sv_inner (fuel + 1) node parent_sv accum_shift time w
                = match nd.children with
                  | Option.none => some (set_pos_vel w node
                      (parent_sv.1 + new_rel_sv.position) (parent_sv.2 + new_rel_sv.velocity))
                  | some children =>
                    children.foldl
                      (fun acc child => acc.bind
                        (write_rail_to_sv_inner fuel child
                          (parent_sv.1 + new_rel_sv.position,
                            parent_sv.2 + new_rel_sv.velocity)
                          (accum_shift + (new_rel_sv.velocity - old_rel_sv.velocity)) time))
                      (some (set_pos_vel w node
                        (parent_sv.1 + new_rel_sv.position)
                        (parent_sv.2 + new_rel_sv.velocity))))
      ∧ (∀ e : EntityData, w node = some e → filter_loaded_vessels e = true →
          on_rails_query_get w node = Option.none) := by
  constructor
  · intro nd hnd hmode ht
    obtain ⟨old_rel_sv, hold⟩ := convert_total hmode (time.elapsed - time.delta)
    obtain ⟨new_rel_sv, hnew⟩ := convert_total hmode time.elapsed
    exact ⟨old_rel_sv, new_rel_sv, hold, hnew,
      write_rail_inner_step_rail fuel node parent_sv accum_shift time w nd
        (time.elapsed - time.delta) old_rel_sv new_rel_sv hnd hmode
        (duration_checked_sub_of_le ht) hold hnew⟩
  · intro e hw hloaded
    have hsplit : (e.is_vessel = true ∧ e.rigid_body_disabled = false)
        ∧ e.is_celestial_body = false := by
      simpa [filter_loaded_vessels, Bool.and_eq_true] using hloaded
    obtain ⟨⟨h1, h2⟩, h3⟩ := hsplit
    simp [on_rails_query_get, hw, filter_unloaded_vessel_or_celestial_body,
      filter_unloaded_vessels, h2, h3]

/-- Concrete loaded vessel, entity id 2, with a non-`None` (surface) rail
mode: angle 0, radius 5. -/
def vessel_surface_cex : EntityData :=
  { is_vessel := true, is_celestial_body := false, rigid_body_disabled := false,
    rail_mode := some (RailMode.surface { angle := 0, radius := 5 }),
    pos := some (10, 0), vel := some (0, 0),
    celestial_parent := some 1, celestial_children := Option.none }

/-- Concrete one-entity world holding only the surface-classified loaded
vessel (entity 2). -/
def world_surface_cex : World := fun i =>
  if i = 2 then some vessel_surface_cex else Option.none

/-- Witness for C3 (as amended) at the concrete on-rails body (entity 1 of
`world_cex`, a celestial body on an orbit rail) and the concrete loaded
vessel (entity 2 of `world_surface_cex`). -/
theorem on_rails_children_rail_evaluated_witness :
    (on_rails_query_get world_cex 1
        = some { rail_mode := RailMode.orbit orbit_cex, pos := (0, 0), vel := (0, 0),
                 children := some [2] }
      ∧ (RailMode.orbit orbit_cex).is_none = false
      ∧ time_cex.delta ≤ time_cex.elapsed
      ∧ world_surface_cex 2 = some vessel_surface_cex
      ∧ filter_loaded_vessels vessel_surface_cex = true)
    ∧ (∃ old_rel_sv new_rel_sv : RelativeStateVectors,
        convert_rail_to_relative_sv (RailMode.orbit orbit_cex)
            (time_cex.elapsed - time_cex.delta) = some old_rel_sv
          ∧ convert_rail_to_relative_sv (RailMode.orbit orbit_cex) time_cex.elapsed
              = some new_rel_sv)
    ∧ on_rails_query_get world_surface_cex 2 = Option.none := by
  have hb : on_rails_query_get world_cex 1
      = some { rail_mode := RailMode.orbit orbit_cex, pos := (0, 0), vel := (0, 0),
               children := some [2] } := by
    simp [on_rails_query_get, world_cex, parent_body_cex,
      filter_unloaded_vessel_or_celestial_body, filter_unloaded_vessels]
  have ht : time_cex.delta ≤ time_cex.elapsed := by norm_num [time_cex]
  have hw2 : world_surface_cex 2 = some vessel_surface_cex := by
    simp [world_surface_cex]
  have hloaded : filter_loaded_vessels vessel_surface_cex = true := by
    simp [filter_loaded_vessels, vessel_surface_cex]
  refine ⟨⟨hb, rfl, ht, hw2, hloaded⟩, ?_, ?_⟩
  · obtain ⟨o1, o2, h1, h2, _⟩ :=
      (on_rails_children_rail_evaluated 0 1 ZERO_SV 0 time_cex world_cex).1
        { rail_mode := RailMode.orbit orbit_cex, pos := (0, 0), vel := (0, 0),
          children := some [2] } hb rfl ht
    exact ⟨o1, o2, h1, h2⟩
  · exact (on_rails_children_rail_evaluated 0 2 ZERO_SV 0 time_cex world_surface_cex).2
      vessel_surface_cex hw2 hloaded

/-- Counterexample to C3 as stated: entity 2 is a loaded vessel with a
non-`None` (surface) `RailMode`, yet rail propagation does not rewrite its
root state from the rail formula — its position stays `(10, 0)` instead of
the rail-evaluated `(5, 0)`; it only receives the additive velocity shift. -/
theorem loaded_vessel_not_rail_evaluated_cex :
    vessel_surface_cex.rail_mode
        = some (RailMode.surface { angle := 0, radius := 5 })
    ∧ filter_loaded_vessels vessel_surface_cex = true
    ∧ pos_of ((write_rail_to_sv_inner (0 + 1) 2 ZERO_SV (0, 0) time_cex
          world_surface_cex).getD world_surface_cex) 2 = some (10, 0)
    ∧ (((10, 0) : Vec2))
        ≠ ZERO_SV.1 + (5 : ℝ) • ((Real.cos 0, Real.sin 0) : Vec2) := by
  have hon : on_rails_query_get world_surface_cex 2 = Option.none := by
    simp [on_rails_query_get, world_surface_cex, vessel_surface_cex,
      filter_unloaded_vessel_or_celestial_body, filter_unloaded_vessels]
  have hoff : off_rails_query_get world_surface_cex 2
      = some { pos := (10, 0), vel := (0, 0) } := by
    simp [off_rails_query_get, world_surface_cex, vessel_surface_cex, filter_loaded_vessels]
  have hstep := write_rail_inner_step_off_rails 0 2 ZERO_SV (0, 0) time_cex
    world_surface_cex { pos := (10, 0), vel := (0, 0) } hon hoff
  refine ⟨rfl, by simp [filter_loaded_vessels, vessel_surface_cex], ?_, ?_⟩
  · rw [hstep]
    simp [pos_of, set_vel, world_surface_cex, vessel_surface_cex]
  · intro h
    have hfst := congrArg Prod.fst h
    simp [ZERO_SV, Prod.smul_fst, Real.cos_zero] at hfst

lemma on_rails_query_get_some {w : World} {id : ℕ} {nd : NodeData}
    (h : on_rails_query_get w id = some nd) : ∃ e : EntityData, w id = some e := by
  unfold on_rails_query_get at h
  cases hw : w id with
  | none =>
    rw [hw] at h
    exact absurd h (by simp)
  | some e => exact ⟨e, rfl⟩

lemma vel_of_set_pos_vel_self {w : World} {id : ℕ} {e : EntityData}
    (hw : w id = some e) (p v : Vec2) :
    vel_of (set_pos_vel w id p v) id = some v := by
  simp [vel_of, set_pos_vel, hw]

lemma vel_of_set_pos_vel_ne (w : World) (id : ℕ) (p v : Vec2) {j : ℕ} (h : j ≠ id) :
    vel_of (set_pos_vel w id p v) j = vel_of w j := by
  simp [vel_of, set_pos_vel, h]

/-- Claim C1: shift conservation across a purely-rail chain. For a
three-level rail tree — parentless root, orbiting body `b` with
`RailMode::Orbit`, surface-attached grandchild `c` — one invocation of
`write_rail_to_sv` seeds `b` with a zero parent state vector and zero
accumulated shift, and afterwards `c`'s root velocity equals `b`'s
newly-written root velocity exactly (a surface attachment has zero relative
velocity), which is the orbit-evaluated velocity at the elapsed time. -/
theorem shift_conservation_rail_chain
    (fuel b c : ℕ) (time : Time) (w : World)
    (o : Orbit2D) (att : SurfaceAttachment) (pb vb pc vc : Vec2)
    (hb : on_rails_query_get w b
      = some { rail_mode := RailMode.orbit o, pos := pb, vel := vb, children := some [c] })
    (hc : on_rails_query_get w c
      = some { rail_mode := RailMode.surface att, pos := pc, vel := vc,
               children := Option.none })
    (hcb : c ≠ b)
    (ht : time.delta ≤ time.elapsed) :
    (write_rail_to_sv_inner (fuel + 1 + 1) b ZERO_SV 0 time w).isSome = true
    ∧ vel_of ((write_rail_to_sv_inner (fuel + 1 + 1) b ZERO_SV 0 time w).getD w) c
        = vel_of ((write_rail_to_sv_inner (fuel + 1 + 1) b ZERO_SV 0 time w).getD w) b
    ∧ vel_of ((write_rail_to_sv_inner (fuel + 1 + 1) b ZERO_SV 0 time w).getD w) b
        = some ((o.state_vectors_at_time time.elapsed).2) := by
  obtain ⟨eb, heb⟩ := on_rails_query_get_some hb
  obtain ⟨ec, hec⟩ := on_rails_query_get_some hc
  have hstep1 := write_rail_inner_step_rail (fuel + 1) b ZERO_SV 0 time w
    { rail_mode := RailMode.orbit o, pos := pb, vel := vb, children := some [c] }
    (time.elapsed - time.delta)
    { position := (o.state_vectors_at_time (time.elapsed - time.delta)).1,
      velocity := (o.state_vectors_at_time (time.elapsed - time.delta)).2 }
    { position := (o.state_vectors_at_time time.elapsed).1,
      velocity := (o.state_vectors_at_time time.elapsed).2 }
    hb rfl (duration_checked_sub_of_le ht) (convert_orbit o _) (convert_orbit o _)
  simp only [List.foldl, Option.bind] at hstep1
  set npos := ZERO_SV.1 + (o.state_vectors_at_time time.elapsed).1 with hnpos
  set nvel := ZERO_SV.2 + (o.state_vectors_at_time time.elapsed).2 with hnvel
  set w1 := set_pos_vel w b npos nvel with hw1
  have hc1 : on_rails_query_get w1 c
      = some { rail_mode := RailMode.surface att, pos := pc, vel := vc,
               children := Option.none } := by
    rw [hw1, on_rails_query_get_set_pos_vel_ne w b npos nvel hcb]
    exact hc
  have hstep2 := write_rail_inner_step_rail fuel c (npos, nvel)
    (0 + ((o.state_vectors_at_time time.elapsed).2
      - (o.state_vectors_at_time (time.elapsed - time.delta)).2)) time w1
    { rail_mode := RailMode.surface att, pos := pc, vel := vc, children := Option.none }
    (time.elapsed - time.delta)
    { position := att.radius • ((Real.cos att.angle, Real.sin att.angle) : Vec2),
      velocity := 0 }
    { position := att.radius • ((Real.cos att.angle, Real.sin att.angle) : Vec2),
      velocity := 0 }
    hc1 rfl (duration_checked_sub_of_le ht) (convert_surface att _) (convert_surface att _)
  simp only at hstep2
  have hrun : write_rail_to_sv_inner (fuel + 1 + 1) b ZERO_SV 0 time w
      = some (set_pos_vel w1 c
          ((npos, nvel).1 + att.radius • ((Real.cos att.angle, Real.sin att.angle) : Vec2))
          ((npos, nvel).2 + 0)) := by
    rw [hstep1, hstep2]
  rw [hrun]
  have hw1c : w1 c = some ec := by
    rw [hw1, set_pos_vel_ne w b npos nvel hcb]
    exact hec
  refine ⟨rfl, ?_, ?_⟩
  · rw [Option.getD_some, vel_of_set_pos_vel_self hw1c,
      vel_of_set_pos_vel_ne w1 c _ _ (Ne.symm hcb), hw1,
      vel_of_set_pos_vel_self heb]
    simp
  · rw [Option.getD_some, vel_of_set_pos_vel_ne w1 c _ _ (Ne.symm hcb), hw1,
      vel_of_set_pos_vel_self heb, hnvel]
    rw [show (ZERO_SV.2 : Vec2) = 0 from rfl, zero_add]

/-- Concrete surface-attached lander: unloaded vessel, entity id 2, attached
at angle 0, radius 5 to its parent (entity 1). -/
def lander_cex : EntityData :=
  { is_vessel := true, is_celestial_body := false, rigid_body_disabled := true,
    rail_mode := some (RailMode.surface { angle := 0, radius := 5 }),
    pos := some (5, 0), vel := some (0, 0),
    celestial_parent := some 1, celestial_children := Option.none }

/-- Concrete rail chain: orbiting celestial body (entity 1) with a
surface-attached lander child (entity 2). -/
def world_chain_cex : World := fun i =>
  if i = 1 then some parent_body_cex
  else if i = 2 then some lander_cex
  else Option.none

/-- Witness for C1 at the concrete chain world, fuel 0 + 2. -/
theorem shift_conservation_rail_chain_witness :
    (on_rails_query_get world_chain_cex 1
        = some { rail_mode := RailMode.orbit orbit_cex, pos := (0, 0), vel := (0, 0),
                 children := some [2] }
      ∧ on_rails_query_get world_chain_cex 2
          = some { rail_mode := RailMode.surface { angle := 0, radius := 5 },
                   pos := (5, 0), vel := (0, 0), children := Option.none }
      ∧ (2 : ℕ) ≠ 1
      ∧ time_cex.delta ≤ time_cex.elapsed)
    ∧ ((write_rail_to_sv_inner (0 + 1 + 1) 1 ZERO_SV 0 time_cex world_chain_cex).isSome
        = true
      ∧ vel_of ((write_rail_to_sv_inner (0 + 1 + 1) 1 ZERO_SV 0 time_cex
            world_chain_cex).getD world_chain_cex) 2
        = vel_of ((write_rail_to_sv_inner (0 + 1 + 1) 1 ZERO_SV 0 time_cex
            world_chain_cex).getD world_chain_cex) 1
      ∧ vel_of ((write_rail_to_sv_inner (0 + 1 + 1) 1 ZERO_SV 0 time_cex
            world_chain_cex).getD world_chain_cex) 1
        = some ((orbit_cex.state_vectors_at_time time_cex.elapsed).2)) := by
  have h1 : on_rails_query_get world_chain_cex 1
      = some { rail_mode := RailMode.orbit orbit_cex, pos := (0, 0), vel := (0, 0),
               children := some [2] } := by
    simp [on_rails_query_get, world_chain_cex, parent_body_cex,
      filter_unloaded_vessel_or_celestial_body, filter_unloaded_vessels]
  have h2 : on_rails_query_get world_chain_cex 2
      = some { rail_mode := RailMode.surface { angle := 0, radius := 5 },
               pos := (5, 0), vel := (0, 0), children := Option.none } := by
    simp [on_rails_query_get, world_chain_cex, lander_cex,
      filter_unloaded_vessel_or_celestial_body, filter_unloaded_vessels]
  have h3 : (2 : ℕ) ≠ 1 := by norm_num
  have h4 : time_cex.delta ≤ time_cex.elapsed := by norm_num [time_cex]
  exact ⟨⟨h1, h2, h3, h4⟩,
    shift_conservation_rail_chain 0 1 2 time_cex world_chain_cex orbit_cex
      { angle := 0, radius := 5 } (0, 0) (0, 0) (5, 0) (0, 0) h1 h2 h3 h4⟩

lemma foldl_bind_isSome (f : ℕ → World → Option World)
    (hf : ∀ (c : ℕ) (w : World), (f c w).isSome = true) :
    ∀ (l : List ℕ) (acc : Option World), acc.isSome = true →
      (l.foldl (fun a c => a.bind (f c)) acc).isSome = true := by
  intro l
  induction l with
  | nil =>
    intro acc h
    simpa using h
  | cons c cs ih =>
    intro acc h
    simp only [List.foldl]
    apply ih
    cases acc with
    | none => simp at h
    | some w => simpa using hf c w

/-- Claim C7: `RailMode::None` is never evaluated. A propagation result of
`Option.none` models a panic (the `unreachable!` branch of
`convert_rail_to_relative_sv`, or the time `unwrap`); given the bevy
invariant that the fixed delta never exceeds the elapsed time, propagation
always returns a world — so the `unreachable!` branch is never reached — and
a node whose `RailMode` is `None` returns the world unchanged: no root-state
update, no descent into children, no shift propagated through them. -/
theorem rail_mode_none_never_evaluated (time : Time) (ht : time.delta ≤ time.elapsed) :
    (∀ (fuel node : ℕ) (parent_sv : Vec2 × Vec2) (accum_shift : Vec2) (w : World),
        (write_rail_to_sv_inner fuel node parent_sv accum_shift time w).isSome = true)
    ∧ (∀ (fuel node : ℕ) (parent_sv : Vec2 × Vec2) (accum_shift : Vec2) (w : World)
        (nd : NodeData), on_rails_query_get w node = some nd →
          nd.rail_mode.is_none = true →
            write_rail_to_sv_inner (fuel + 1) node parent_sv accum_shift time w
              = some w) := by
  constructor
  · intro fuel
    induction fuel with
    | zero =>
      intro node psv shift w
      simp [write_rail_to_sv_inner]
    | succ fuel ih =>
      intro node psv shift w
      cases hq : on_rails_query_get w node with
      | none =>
        cases hq2 : off_rails_query_get w node with
        | none =>
          rw [write_rail_inner_step_no_query fuel node psv shift time w hq hq2]
          rfl
        | some sv =>
          rw [write_rail_inner_step_off_rails fuel node psv shift time w sv hq hq2]
          rfl
      | some nd =>
        cases hm : nd.rail_mode.is_none with
        | true =>
          rw [write_rail_inner_step_none_mode fuel node psv shift time w nd hq hm]
          rfl
        | false =>
          obtain ⟨old_rel, hold⟩ := convert_total hm (time.elapsed - time.delta)
          obtain ⟨new_rel, hnew⟩ := convert_total hm time.elapsed
          rw [write_rail_inner_step_rail fuel node psv shift time w nd
            (time.elapsed - time.delta) old_rel new_rel hq hm
            (duration_checked_sub_of_le ht) hold hnew]
          cases nd.children with
          | none => rfl
          | some cs =>
            exact foldl_bind_isSome _ (fun c w => ih c _ _ w) cs _ rfl
  · intro fuel node psv shift w nd hq hm
    exact write_rail_inner_step_none_mode fuel node psv shift time w nd hq hm

/-- Concrete celestial body (entity 3) whose `RailMode` is `None`. -/
def celestial_none_cex : EntityData :=
  { is_vessel := false, is_celestial_body := true, rigid_body_disabled := false,
    rail_mode := some RailMode.none, pos := some (0, 0), vel := some (0, 0),
    celestial_parent := Option.none, celestial_children := some [] }

/-- Concrete world holding only the `RailMode::None` celestial body. -/
def world_none_cex : World := fun i =>
  if i = 3 then some celestial_none_cex else Option.none

/-- Witness for C7: propagation over the concrete chain world never panics,
and the concrete `RailMode::None` node leaves the world unchanged. -/
theorem rail_mode_none_never_evaluated_witness :
    time_cex.delta ≤ time_cex.elapsed
    ∧ (write_rail_to_sv_inner 5 1 ZERO_SV 0 time_cex world_chain_cex).isSome = true
    ∧ write_rail_to_sv_inner (0 + 1) 3 ZERO_SV 0 time_cex world_none_cex
        = some world_none_cex := by
  have ht : time_cex.delta ≤ time_cex.elapsed := by norm_num [time_cex]
  have hq : on_rails_query_get world_none_cex 3
      = some { rail_mode := RailMode.none, pos := (0, 0), vel := (0, 0),
               children := some [] } := by
    simp [on_rails_query_get, world_none_cex, celestial_none_cex,
      filter_unloaded_vessel_or_celestial_body, filter_unloaded_vessels]
  exact ⟨ht,
    (rail_mode_none_never_evaluated time_cex ht).1 5 1 ZERO_SV 0 world_chain_cex,
    (rail_mode_none_never_evaluated time_cex ht).2 0 3 ZERO_SV 0 world_none_cex
      { rail_mode := RailMode.none, pos := (0, 0), vel := (0, 0), children := some [] }
      hq rfl⟩

/-- The components of one entity relevant to the frame-sync systems:
root-space position/velocity, the rigid-space transform's translation and
the rigid-space velocity, the rapier `Collider` marker, and the
`ParentBody` relation. -/
structure FrameEntityData where
  root_pos : Option Vec2
  root_vel : Option Vec2
  rigid_tf : Option Vec2
  rigid_vel : Option Vec2
  has_collider : Bool
  parent_body : Option ℕ

/-- An ECS world for the frame-sync systems. -/
def FrameWorld := ℕ → Option FrameEntityData

/-- `sync_root_to_rigid` (`src/systems/frame_sync.rs:18-61`): for every
entity with a root position, write its rigid transform from
`to_rigid_space_position` against the previous-tick active-vessel snapshot
(inserting when missing yields the same stored value); for every entity with
a collider, write its rigid velocity from
`to_rigid_space_linear_velocity` of its root velocity (defaulted to zero)
against the snapshot velocity. -/
def sync_root_to_rigid (narrow : ℝ → ℝ) (active_vessel : ActiveVessel)
    (w : FrameWorld) : FrameWorld :=
  fun i => (w i).map (fun e =>
    let e1 := match e.root_pos with
      | some p =>
        { e with
          rigid_tf := some (to_rigid_space_position narrow p
            active_vessel.prev_tick_position) }
      | Option.none => e
    if e1.has_collider then
      { e1 with
        rigid_vel := some (to_rigid_space_linear_velocity narrow (e1.root_vel.getD 0)
          active_vessel.prev_tick_velocity) }
    else e1)

/-- `sync_rigid_pos_to_root` (`src/systems/frame_sync.rs:64-98`): for every
entity with a rigid transform and a `ParentBody` equal to the previous-tick
active-vessel parent, overwrite (or insert) the root position from
`to_root_space_position` against the snapshot position; all other entities
are skipped. -/
def sync_rigid_pos_to_root (active_vessel : ActiveVessel) (w : FrameWorld) : FrameWorld :=
  fun i => (w i).map (fun e =>
    match e.rigid_tf, e.parent_body with
    | some t, some pb =>
      if pb = active_vessel.prev_tick_parent then
        { e with
          root_pos := some (to_root_space_position t
            active_vessel.prev_tick_position) }
      else e
    | _, _ => e)

/-- Root position component in a frame-sync world, if present. -/
def frame_root_pos_of (w : FrameWorld) (id : ℕ) : Option Vec2 :=
  (w id).bind (fun e => e.root_pos)

/-- Rigid transform translation in a frame-sync world, if present. -/
def frame_rigid_tf_of (w : FrameWorld) (id : ℕ) : Option Vec2 :=
  (w id).bind (fun e => e.rigid_tf)

/-- Claim C8 (as amended): the pre-switch writes every root-positioned
entity's rigid position as root position minus the previous-tick
active-vessel snapshot position (narrowed); the post-switch converts the
rigid value back with the same snapshot and overwrites the root position
only for entities whose `ParentBody` equals the snapshot parent — and for
such an entity, if the physics step leaves the rigid value unchanged and the
narrowing is exact on that value, the root position is restored exactly. -/
theorem frame_recentering_pipeline (narrow : ℝ → ℝ) (active_vessel : ActiveVessel)
    (w : FrameWorld) (i : ℕ) :
    (∀ (e : FrameEntityData) (p : Vec2), w i = some e → e.root_pos = some p →
        frame_rigid_tf_of (sync_root_to_rigid narrow active_vessel w) i
          = some (to_rigid_space_position narrow p active_vessel.prev_tick_position))
    ∧ (∀ (e : FrameEntityData) (t : Vec2), w i = some e → e.rigid_tf = some t →
        e.parent_body = some active_vessel.prev_tick_parent →
          frame_root_pos_of (sync_rigid_pos_to_root active_vessel w) i
            = some (to_root_space_position t active_vessel.prev_tick_position))
    ∧ (∀ (e : FrameEntityData) (p : Vec2), w i = some e → e.root_pos = some p →
        e.parent_body = some active_vessel.prev_tick_parent →
        narrow2 narrow (p - active_vessel.prev_tick_position)
            = p - active_vessel.prev_tick_position →
          frame_root_pos_of
              (sync_rigid_pos_to_root active_vessel (sync_root_to_rigid narrow active_vessel w)) i
            = some p) := by
  refine ⟨?_, ?_, ?_⟩
  · intro e p hw hp
    obtain ⟨rp, rv, rt, rgv, hc, pb⟩ := e
    simp only at hp
    subst hp
    unfold frame_rigid_tf_of sync_root_to_rigid
    rw [hw]
    cases hc <;> simp
  · intro e t hw ht hpb
    obtain ⟨rp, rv, rt, rgv, hc, pb⟩ := e
    simp only at ht hpb
    subst ht hpb
    unfold frame_root_pos_of sync_rigid_pos_to_root
    rw [hw]
    simp
  · intro e p hw hp hpb hexact
    obtain ⟨rp, rv, rt, rgv, hc, pb⟩ := e
    simp only at hp hpb
    subst hp hpb
    unfold frame_root_pos_of sync_rigid_pos_to_root sync_root_to_rigid
    rw [hw]
    cases hc <;>
      · simp [to_rigid_space_position, to_root_space_position]
        rw [hexact]
        abel

/-- Concrete frame-sync entity (id 4) with no `ParentBody`, standing at root
`(0, 0)` while its rigid value was moved to `(7, 7)` by the physics step. -/
def frame_entity_cex : FrameEntityData :=
  { root_pos := some (0, 0), root_vel := some (0, 0), rigid_tf := some (7, 7),
    rigid_vel := some (0, 0), has_collider := true, parent_body := Option.none }

/-- Concrete frame-sync world holding only entity 4. -/
def frame_world_cex : FrameWorld := fun i =>
  if i = 4 then some frame_entity_cex else Option.none

/-- Concrete active-vessel snapshot at `(0.5, 1.5)` with parent entity 1. -/
def active_frame_cex : ActiveVessel := ⟨9, (0.5, 1.5), (1, 0), 1⟩

/-- Counterexample to C8 as stated: the post-switch does not run for every
entity — entity 4 has no `ParentBody` matching the snapshot parent, so its
root position stays `(0, 0)` instead of being overwritten with the converted
rigid value `(7.5, 8.5)`. -/
theorem post_switch_parent_filter_cex :
    frame_entity_cex.rigid_tf = some (7, 7)
    ∧ frame_root_pos_of (sync_rigid_pos_to_root active_frame_cex frame_world_cex) 4
        = some (0, 0)
    ∧ some (((0, 0)) : Vec2)
        ≠ some (to_root_space_position (7, 7) active_frame_cex.prev_tick_position) := by
  refine ⟨rfl, ?_, ?_⟩
  · simp [frame_root_pos_of, sync_rigid_pos_to_root, frame_world_cex, frame_entity_cex]
  · intro h
    have h2 := congrArg (fun x => (Option.getD x 0).1) h
    simp [to_root_space_position, active_frame_cex] at h2
    norm_num at h2

/-- Concrete frame-sync entity (id 4) whose `ParentBody` is the snapshot
parent, at root `(0, 0)`. -/
def frame_entity_w : FrameEntityData :=
  { root_pos := some (0, 0), root_vel := some (0, 0), rigid_tf := some (1, 1),
    rigid_vel := some (0, 0), has_collider := true, parent_body := some 1 }

/-- Concrete frame-sync world holding only the parented entity 4. -/
def frame_world_w : FrameWorld := fun i =>
  if i = 4 then some frame_entity_w else Option.none

/-- Witness for C8 (as amended) at the scenario values: active vessel
snapshot `(0.5, 1.5)`, body at `(0, 0)`; the pre-switch writes rigid
`(-0.5, -1.5)` and the pre/post round-trip restores root `(0, 0)`. -/
theorem frame_recentering_pipeline_witness :
    (frame_world_w 4 = some frame_entity_w
      ∧ frame_entity_w.root_pos = some (0, 0)
      ∧ frame_entity_w.parent_body = some active_frame_cex.prev_tick_parent
      ∧ narrow2 id ((((0 : ℝ), (0 : ℝ)) : Vec2) - active_frame_cex.prev_tick_position)
          = (((0 : ℝ), (0 : ℝ)) : Vec2) - active_frame_cex.prev_tick_position)
    ∧ frame_rigid_tf_of (sync_root_to_rigid id active_frame_cex frame_world_w) 4
        = some (to_rigid_space_position id (0, 0) active_frame_cex.prev_tick_position)
    ∧ to_rigid_space_position id (0, 0) active_frame_cex.prev_tick_position
        = (-0.5, -1.5)
    ∧ frame_root_pos_of
        (sync_rigid_pos_to_root active_frame_cex
          (sync_root_to_rigid id active_frame_cex frame_world_w)) 4
        = some (0, 0) := by
  have hw : frame_world_w 4 = some frame_entity_w := by simp [frame_world_w]
  have hex : narrow2 id ((((0 : ℝ), (0 : ℝ)) : Vec2) - active_frame_cex.prev_tick_position)
      = (((0 : ℝ), (0 : ℝ)) : Vec2) - active_frame_cex.prev_tick_position := rfl
  refine ⟨⟨hw, rfl, rfl, hex⟩, ?_, ?_, ?_⟩
  · exact (frame_recentering_pipeline id active_frame_cex frame_world_w 4).1
      frame_entity_w (0, 0) hw rfl
  · unfold to_rigid_space_position narrow2 active_frame_cex
    norm_num
  · exact (frame_recentering_pipeline id active_frame_cex frame_world_w 4).2.2
      frame_entity_w (0, 0) hw rfl rfl hex

/-- The `RailMode` components of one spawned entity as far as the
`CelestialParent`/`RailMode` relationship is concerned. -/
structure SpawnComps where
  celestial_parent : Option ℕ
  rail_mode : Option RailMode

/-- The `#[default]` variant of `RailMode`
(`src/components/relations.rs:27-32`): `None`. -/
def rail_mode_default : RailMode := RailMode.none

/-- A component insertion: either a `CelestialParent` (pointing at a parent
entity) or an explicit `RailMode` write (a spawn bundle's `rail_mode` field,
or a classification write from `write_sv_to_rail`). -/
inductive SpawnOp where
  | insert_celestial_parent (parent : ℕ)
  | insert_rail_mode (m : RailMode)

/-- Bevy required-components semantics for the `#[require(RailMode)]`
attribute on `CelestialParent` (`src/components/relations.rs:6-10`):
inserting `CelestialParent` also inserts the required `RailMode` with its
default value when the entity does not already have one; an explicit
`RailMode` insertion overwrites. -/
def apply_spawn_op (e : SpawnComps) : SpawnOp → SpawnComps
  | SpawnOp.insert_celestial_parent p =>
    { celestial_parent := some p, rail_mode := some (e.rail_mode.getD rail_mode_default) }
  | SpawnOp.insert_rail_mode m => { e with rail_mode := some m }

/-- A freshly spawned entity: no components yet. -/
def empty_spawn : SpawnComps := ⟨Option.none, Option.none⟩

/-- Spawning an entity with a sequence of component insertions. -/
def spawn_with (ops : List SpawnOp) : SpawnComps :=
  ops.foldl apply_spawn_op empty_spawn

/-- Whether an operation list ever writes a `RailMode` explicitly. -/
def writes_rail_mode : List SpawnOp → Bool
  | [] => false
  | SpawnOp.insert_rail_mode _ :: _ => true
  | _ :: rest => writes_rail_mode rest

lemma spawn_invariant_parent (ops : List SpawnOp) :
    ∀ e : SpawnComps, (e.celestial_parent.isSome = true → e.rail_mode.isSome = true) →
      ((ops.foldl apply_spawn_op e).celestial_parent.isSome = true →
        (ops.foldl apply_spawn_op e).rail_mode.isSome = true) := by
  induction ops with
  | nil =>
    intro e h
    simpa using h
  | cons op rest ih =>
    intro e h
    simp only [List.foldl]
    apply ih
    cases op with
    | insert_celestial_parent p => simp [apply_spawn_op]
    | insert_rail_mode m =>
      intro hp
      simp [apply_spawn_op]

lemma spawn_invariant_unwritten (ops : List SpawnOp) (hw : writes_rail_mode ops = false) :
    ∀ e : SpawnComps,
      (e.rail_mode = Option.none ∨ e.rail_mode = some RailMode.none) →
        ((ops.foldl apply_spawn_op e).rail_mode = Option.none
          ∨ (ops.foldl apply_spawn_op e).rail_mode = some RailMode.none) := by
  induction ops with
  | nil =>
    intro e h
    simpa using h
  | cons op rest ih =>
    intro e h
    cases op with
    | insert_celestial_parent p =>
      simp only [List.foldl]
      apply ih (by simpa [writes_rail_mode] using hw)
      rcases h with h | h <;>
        simp [apply_spawn_op, h, rail_mode_default]
    | insert_rail_mode m => simp [writes_rail_mode] at hw

/-- Claim C10: every entity with a `CelestialParent` component also has a
`RailMode` component — `CelestialParent` requires `RailMode`, inserted with
its default on demand — and a `RailMode` never explicitly written (in
particular never written by classification) is the default variant `None`. -/
theorem celestial_parent_requires_rail_mode (ops : List SpawnOp) :
    ((spawn_with ops).celestial_parent.isSome = true →
        (spawn_with ops).rail_mode.isSome = true)
      ∧ (writes_rail_mode ops = false →
          (spawn_with ops).rail_mode = Option.none
            ∨ (spawn_with ops).rail_mode = some RailMode.none)
      ∧ rail_mode_default = RailMode.none := by
  refine ⟨?_, ?_, rfl⟩
  · exact spawn_invariant_parent ops empty_spawn (by simp [empty_spawn])
  · intro hw
    exact spawn_invariant_unwritten ops hw empty_spawn (Or.inl rfl)

/-- Witness for C10: spawning with a single `CelestialParent` insertion
(pointing at entity 1) yields an entity whose `RailMode` is present and is
the default `None`. -/
theorem celestial_parent_requires_rail_mode_witness :
    (spawn_with [SpawnOp.insert_celestial_parent 1]).celestial_parent.isSome = true
      ∧ (spawn_with [SpawnOp.insert_celestial_parent 1]).rail_mode.isSome = true
      ∧ writes_rail_mode [SpawnOp.insert_celestial_parent 1] = false
      ∧ ((spawn_with [SpawnOp.insert_celestial_parent 1]).rail_mode = Option.none
          ∨ (spawn_with [SpawnOp.insert_celestial_parent 1]).rail_mode
              = some RailMode.none) := by
  have h := celestial_parent_requires_rail_mode [SpawnOp.insert_celestial_parent 1]
  exact ⟨rfl, h.1 rfl, rfl, h.2.1 rfl⟩

end HCSP
